import Mathlib

/-!
# Verification of MqttNetworkTransport (MqttClientNetworkTransport.cpp)

Shallow embedding of the MQTT client network transport adapter:

* `StringUtils.sprintf` is modelled as a format-item walker over a list of
  arguments (printf semantics: each conversion specifier consumes one
  argument; arguments left over when the format string is exhausted are
  ignored, as in C).
* `ConnectionAdapter.GetPeerId` is translated from the source, including its
  exact format string.
* `MqttClientNetworkTransport.Connect` is translated as a function from an
  environment describing the external collaborators (connection factory,
  host-name resolution, the raw connection's connect/process results) to an
  outcome holding the ordered trace of externally visible actions, the
  delegate registry contents, the installed diagnostics relay handler, and
  the returned connection (or `none`).
* The delegate registry's concurrency contract is modelled as a finite
  two-thread interleaving system with an explicit lock, where the delegate
  store is split into two cells so that a torn (half-updated) read is
  representable, and hence its absence is a real property.
-/

namespace MqttNetworkTransport

/-- Which thread currently holds the registry's mutual-exclusion primitive
(`ConnectionDelegates::mutex`): the protocol-engine thread performing a
delegate-replacement call (`writer`) or the raw connection's event thread
running a translation closure (`reader`). -/
inductive LockOwner where
  | writer
  | reader
deriving DecidableEq, Repr

/-- One interleaving state of the delegate registry under a concurrent
delegate replacement and an in-flight event translation.  The stored
delegate (`std::function`) is a multi-word value whose non-atomic assignment
is modelled as two separately written cells (`cell1`, `cell2`); a torn value
is exactly a state whose two cells (or two snapshot halves) disagree.  `0`
encodes the old delegate value, `1` the replacement.

Writer program (`SetDataReceivedDelegate` / `SetConnectionBrokenDelegate`,
source lines 62–71; the two set operations are structurally identical, both
a `lock_guard` around one slot assignment):
`pcW = 0` acquire, `1`/`2` write the two halves of the slot, `3` release,
`4` done.

Reader program (the translation closures handed to `Process`, source lines
163–181, whose inner scope is a `lock_guard` around the snapshot copy and
whose invocation happens after that scope ends):
`pcR = 0` acquire, `1`/`2` copy the two halves of the slot into the local
snapshot, `3` release, `4` invoke the snapshotted delegate (outside the
lock), `5` done. -/
structure RegState where
  pcW : Nat
  pcR : Nat
  lock : Option LockOwner
  cell1 : Nat
  cell2 : Nat
  snap1 : Nat
  snap2 : Nat
deriving DecidableEq, Repr

/-- Successor states contributed by the replacement call's thread. -/
def writerStep (s : RegState) : List RegState :=
  match s.pcW with
  | 0 => match s.lock with
         | none => [{ s with lock := some .writer, pcW := 1 }]
         | some _ => []
  | 1 => [{ s with cell1 := 1, pcW := 2 }]
  | 2 => [{ s with cell2 := 1, pcW := 3 }]
  | 3 => [{ s with lock := none, pcW := 4 }]
  | _ => []

/-- Successor states contributed by the raw connection's event thread. -/
def readerStep (s : RegState) : List RegState :=
  match s.pcR with
  | 0 => match s.lock with
         | none => [{ s with lock := some .reader, pcR := 1 }]
         | some _ => []
  | 1 => [{ s with snap1 := s.cell1, pcR := 2 }]
  | 2 => [{ s with snap2 := s.cell2, pcR := 3 }]
  | 3 => [{ s with lock := none, pcR := 4 }]
  | 4 => [{ s with pcR := 5 }]
  | _ => []

/-- All successor states under an arbitrary scheduler. -/
def regNext (s : RegState) : List RegState :=
  writerStep s ++ readerStep s

/-- Initial state: both operations about to start, lock free, the slot
holding the old delegate intact. -/
def regInit : RegState :=
  { pcW := 0, pcR := 0, lock := none, cell1 := 0, cell2 := 0,
    snap1 := 0, snap2 := 0 }

/-- States reachable under some interleaving. -/
inductive RegReachable : RegState → Prop where
  | init : RegReachable regInit
  | step {s t : RegState} : RegReachable s → t ∈ regNext s → RegReachable t

/-- Breadth-first exploration of the interleaving system, `n` levels deep. -/
def regExplore : Nat → List RegState
  | 0 => [regInit]
  | n + 1 =>
    let prev := regExplore n
    (prev ++ (prev.map regNext).flatten).dedup

/-- The full reachable state space (the system's longest run is nine steps,
so ten levels suffice; closure is proved below). -/
def regStates : List RegState := regExplore 10

/-- Severity levels of `SystemUtils::DiagnosticsSender`.  Modelled from the
spec: the `DiagnosticsSender` header is an external collaborator that is not
part of this repository; the spec says levels follow an increasing-severity
integer scale whose most verbose tier is the informational one. -/
def Levels.informational : Nat := 0

/-- Modelled from the spec: the fixed error-severity level of
`SystemUtils::DiagnosticsSender` (a distinguished value above the verbose
tiers; its exact number lives outside this repository). -/
def Levels.error : Nat := 10

/-- One argument of a `StringUtils::sprintf` call: either a numeric value
(`PRIu8` / `PRIu16` conversions) or a string (`%s` conversions). -/
inductive FmtArg where
  | nat (n : Nat)
  | str (s : String)
deriving DecidableEq, Repr

/-- Text rendered for one consumed argument. -/
def FmtArg.render : FmtArg → String
  | .nat n => Nat.repr n
  | .str s => s

/-- One piece of a printf format string: literal text, or one conversion
specifier. -/
inductive FmtItem where
  | lit (s : String)
  | spec
deriving DecidableEq, Repr

/-- printf-style formatting: walk the format items, each conversion
specifier consuming the next argument.  Arguments remaining after the format
string is exhausted are ignored (C printf semantics).  A specifier with no
argument left renders nothing (never exercised by this program). -/
def sprintf : List FmtItem → List FmtArg → String
  | [], _ => ""
  | .lit s :: rest, args => s ++ sprintf rest args
  | .spec :: rest, a :: args => a.render ++ sprintf rest args
  | .spec :: rest, [] => sprintf rest []

/-- The format string of `ConnectionAdapter::GetPeerId`, exactly as written
in the source: `"%" PRIu8 ".%" PRIu8 ".%" PRIu8 ":%" PRIu16` — three octet
specifiers separated by dots, then a colon and one 16-bit specifier. -/
def getPeerIdFormat : List FmtItem :=
  [.spec, .lit ".", .spec, .lit ".", .spec, .lit ":", .spec]

/-- `ConnectionAdapter::GetPeerId`: formats the raw connection's resolved
peer address and port with `getPeerIdFormat`, passing the four big-endian
octets of the 32-bit address followed by the port, exactly as the source
does. -/
def GetPeerId (peerAddress peerPort : Nat) : String :=
  sprintf getPeerIdFormat
    [.nat ((peerAddress >>> 24) &&& 0xFF),
     .nat ((peerAddress >>> 16) &&& 0xFF),
     .nat ((peerAddress >>> 8) &&& 0xFF),
     .nat (peerAddress &&& 0xFF),
     .nat peerPort]

/-- The delegate registry of a `ConnectionAdapter` (`ConnectionDelegates` in
the source): two optional callback slots.  `std::function` values are
nullable, hence `Option`; the mutex field is modelled separately in the
interleaving system below. -/
structure ConnectionDelegates (Δd Δb : Type) where
  dataReceivedDelegate : Option Δd
  brokenDelegate : Option Δb
deriving DecidableEq, Repr

/-- A record of one protocol-facing delegate invocation performed by the
adapter's event-translation closures. -/
inductive DelegateCall (Δd Δb : Type) where
  | dataReceived (d : Δd) (message : List Nat)
  | broken (b : Δb) (graceful : Bool)
deriving DecidableEq, Repr

/-- The data-received translation closure `Connect` hands to
`INetworkConnection::Process` (source lines 163–172): snapshot the
data-received slot, then invoke it with the message when it is non-null,
otherwise do nothing.  `registry` is the registry content observed at
snapshot time; the returned list records the invocations performed. -/
def processDataClosure (registry : ConnectionDelegates Δd Δb)
    (message : List Nat) : List (DelegateCall Δd Δb) :=
  match registry.dataReceivedDelegate with
  | none => []
  | some d => [.dataReceived d message]

/-- The broken-connection translation closure `Connect` hands to
`INetworkConnection::Process` (source lines 173–181): snapshot the broken
slot, then invoke it with the graceful flag when it is non-null, otherwise
do nothing. -/
def processBrokenClosure (registry : ConnectionDelegates Δd Δb)
    (graceful : Bool) : List (DelegateCall Δd Δb) :=
  match registry.brokenDelegate with
  | none => []
  | some b => [.broken b graceful]

/-- Behaviour of one raw `SystemUtils::INetworkConnection` as seen by
`Connect`: whether its low-level `Connect(address, port)` succeeds, and
whether its `Process(...)` call succeeds. -/
structure RawConn where
  connectOk : Nat → Nat → Bool
  processOk : Bool

/-- The external collaborators `Connect` consults: the transport's
connection factory (returning `none` for a null connection) and
`SystemUtils::NetworkConnection::GetAddressOfHost` (returning `0` when
resolution fails). -/
structure ConnectEnv where
  factory : String → String → Option RawConn
  getAddressOfHost : String → Nat

/-- Externally visible actions of one `Connect` call, in program order. -/
inductive Event where
  | factoryCall (scheme host : String)
  | subscribeToRawDiagnostics (minLevel : Nat)
  | diagnostic (level : Nat) (message : String)
  | resolveHost (host : String)
  | rawConnect (address port : Nat)
  | installDelegates
  | startProcess
deriving DecidableEq, Repr

/-- The provisional peer label computed at the top of `Connect` (source
line 129): `sprintf("%s:%" PRIu16, hostNameOrAdrress, port)`. -/
def connectPeerId (host : String) (port : Nat) : String :=
  sprintf [.spec, .lit ":", .spec] [.str host, .nat port]

/-- The connection factory installed by `MqttClientNetworkTransport::Impl`'s
constructor (source lines 102–107): a lambda that ignores both of its
arguments and returns a freshly constructed OS-backed
`SystemUtils::NetworkConnection` (`std::make_shared` never yields null).
The constructed object's network behaviour is external to this repository
and is represented by the `connection` parameter. -/
def defaultConnectionFactory (connection : RawConn) :
    String → String → Option RawConn :=
  fun _ _ => some connection

/-- Outcome of one `Connect` call: the ordered action trace, the registry
content at the moment `Process` is started (`none` when that step is never
reached), the diagnostics-relay handler installed on the raw connection
(`none` when no raw connection was created), and the returned connection's
registry (`none` models returning `nullptr`). -/
structure ConnectOutcome (Δd Δb : Type) where
  trace : List Event
  registryAtProcessStart : Option (ConnectionDelegates Δd Δb)
  relayHandler : Option (String → Nat → String → Nat × String)
  result : Option (ConnectionDelegates Δd Δb)

/-- `MqttClientNetworkTransport::Connect`, translated line by line from the
source (lines 124–191).  The provisional peer label is
`sprintf("%s:%" PRIu16, host, port)`; the diagnostics relay closure
captures it and republishes each raw-connection message as
`peerId + ": " + message` at the original level; each failure branch sends
one error diagnostic (the message texts, including the `Unabale` typo and
the process-failure message's surrounding spaces, are the source's) and
returns null. -/
def Connect (env : ConnectEnv) (scheme hostNameOrAdrress : String)
    (port : Nat) (dataReceivedDelegate : Option Δd)
    (brokenDelegate : Option Δb) : ConnectOutcome Δd Δb :=
  let peerId := connectPeerId hostNameOrAdrress port
  match env.factory scheme hostNameOrAdrress with
  | none =>
    { trace := [.factoryCall scheme hostNameOrAdrress,
        .diagnostic Levels.error
          (sprintf [.lit "Unabale to create connection to '", .spec, .lit "'"]
            [.str peerId])]
      registryAtProcessStart := none
      relayHandler := none
      result := none }
  | some conn =>
    let relay := fun (_senderName : String) (level : Nat) (message : String) =>
      (level, peerId ++ ": " ++ message)
    let address := env.getAddressOfHost hostNameOrAdrress
    let t0 := [Event.factoryCall scheme hostNameOrAdrress,
      Event.subscribeToRawDiagnostics 1,
      Event.resolveHost hostNameOrAdrress]
    if address = 0 then
      { trace := t0 ++ [.diagnostic Levels.error
          (sprintf [.lit "There is no address to get from '", .spec, .lit "'"]
            [.str hostNameOrAdrress])]
        registryAtProcessStart := none
        relayHandler := some relay
        result := none }
    else if !conn.connectOk address port then
      { trace := t0 ++ [.rawConnect address port,
          .diagnostic Levels.error
            (sprintf [.lit "Unable to connect to '", .spec, .lit "'"]
              [.str peerId])]
        registryAtProcessStart := none
        relayHandler := some relay
        result := none }
    else
      let registry : ConnectionDelegates Δd Δb :=
        ⟨dataReceivedDelegate, brokenDelegate⟩
      if !conn.processOk then
        { trace := t0 ++ [.rawConnect address port, .installDelegates,
            .startProcess,
            .diagnostic Levels.error
              (" Error to start to process listening for incoming and sending outgoing "
                ++ "messages. ")]
          registryAtProcessStart := some registry
          relayHandler := some relay
          result := none }
      else
        { trace := t0 ++ [.rawConnect address port, .installDelegates,
            .startProcess]
          registryAtProcessStart := some registry
          relayHandler := some relay
          result := some registry }

/-- The error-severity diagnostic messages of a trace, in order. -/
def errorDiagnostics (trace : List Event) : List String :=
  trace.filterMap fun e =>
    match e with
    | .diagnostic level message =>
      if level = Levels.error then some message else none
    | _ => none

/-- `pat` occurs contiguously inside `s`. -/
def ContainsSubstr (s pat : String) : Prop :=
  pat.data <:+: s.data

instance (s pat : String) : Decidable (ContainsSubstr s pat) :=
  inferInstanceAs (Decidable (pat.data <:+: s.data))

set_option maxRecDepth 8000

lemma containsSubstr_of_eq (s pat pre post : String)
    (h : s = pre ++ (pat ++ post)) : ContainsSubstr s pat := by
  subst h
  exact ⟨pre.data, post.data, by simp [String.data_append]⟩

/-- C1: For the resolved address `93.184.216.34` (`0x5DB8D822`) and port
`1883`, `GetPeerId` returns `"93.184.216:34"` — the format string has only
three octet specifiers, so the fourth octet is printed in the port position
and the port argument is never printed — and not the `"93.184.216.34:1883"`
the specification requires. -/
theorem getPeerId_drops_fourth_octet_and_port :
    GetPeerId 1572395042 1883 = "93.184.216:34" ∧
      GetPeerId 1572395042 1883 ≠ "93.184.216.34:1883" := by
  constructor
  · decide
  · decide

/-- C3: Whenever the connection factory returns null, `Connect` returns a
failure (null) and emits exactly one error-severity diagnostic whose text
contains the attempted peer label `host:port`. -/
theorem connect_factoryFailure_reports_peer_label
    {Δd Δb : Type} (env : ConnectEnv) (scheme host : String) (port : Nat)
    (d : Option Δd) (b : Option Δb)
    (h : env.factory scheme host = none) :
    (Connect env scheme host port d b).result = none ∧
      ∃ msg, errorDiagnostics (Connect env scheme host port d b).trace = [msg] ∧
        ContainsSubstr msg (connectPeerId host port) := by
  simp only [Connect, h]
  refine ⟨trivial, sprintf [.lit "Unabale to create connection to '", .spec, .lit "'"]
    [.str (connectPeerId host port)], ?_, ?_⟩
  · simp [errorDiagnostics]
  · exact containsSubstr_of_eq _ _ "Unabale to create connection to '"
      ("'" ++ "") (by simp [sprintf, FmtArg.render])

/-- Witness for `connect_factoryFailure_reports_peer_label` at a concrete
environment whose factory returns null. -/
theorem connect_factoryFailure_reports_peer_label_witness :
    (Connect
        ⟨fun _ _ => none, fun _ => 7⟩ "mqtt" "h" 1883 (none : Option Nat) (none : Option Nat)).result = none ∧
      ∃ msg, errorDiagnostics (Connect
          ⟨fun _ _ => none, fun _ => 7⟩ "mqtt" "h" 1883 (none : Option Nat) (none : Option Nat)).trace = [msg] ∧
        ContainsSubstr msg (connectPeerId "h" 1883) :=
  connect_factoryFailure_reports_peer_label
    ⟨fun _ _ => none, fun _ => 7⟩ "mqtt" "h" 1883 (none : Option Nat) (none : Option Nat) rfl

/-- C4: Whenever host-name resolution yields the zero address (and a raw
connection was created), `Connect` reports the resolution failure at error
severity and returns null without ever attempting the low-level connect on
the raw connection. -/
theorem connect_resolutionFailure_no_rawConnect
    {Δd Δb : Type} (env : ConnectEnv) (scheme host : String) (port : Nat)
    (d : Option Δd) (b : Option Δb) (conn : RawConn)
    (hf : env.factory scheme host = some conn)
    (hr : env.getAddressOfHost host = 0) :
    (Connect env scheme host port d b).result = none ∧
      errorDiagnostics (Connect env scheme host port d b).trace =
        [sprintf [.lit "There is no address to get from '", .spec, .lit "'"]
          [.str host]] ∧
      ∀ address port', Event.rawConnect address port' ∉
        (Connect env scheme host port d b).trace := by
  refine ⟨?_, ?_, ?_⟩ <;> simp [Connect, hf, hr, errorDiagnostics, Levels.error]

/-- Witness for `connect_resolutionFailure_no_rawConnect` at a concrete
environment whose resolution yields the zero address. -/
theorem connect_resolutionFailure_no_rawConnect_witness :
    (Connect
        ⟨fun _ _ => some ⟨fun _ _ => true, true⟩, fun _ => 0⟩
        "mqtt" "nohost" 1883 (none : Option Nat) (none : Option Nat)).result = none ∧
      errorDiagnostics (Connect
          ⟨fun _ _ => some ⟨fun _ _ => true, true⟩, fun _ => 0⟩
          "mqtt" "nohost" 1883 (none : Option Nat) (none : Option Nat)).trace =
        [sprintf [.lit "There is no address to get from '", .spec, .lit "'"]
          [.str "nohost"]] ∧
      ∀ address port', Event.rawConnect address port' ∉
        (Connect
          ⟨fun _ _ => some ⟨fun _ _ => true, true⟩, fun _ => 0⟩
          "mqtt" "nohost" 1883 (none : Option Nat) (none : Option Nat)).trace :=
  connect_resolutionFailure_no_rawConnect _ "mqtt" "nohost" 1883 (none : Option Nat) (none : Option Nat)
    ⟨fun _ _ => true, true⟩ rfl rfl

/-- C2 counterexample: with a factory, resolution and low-level connect that
all succeed but a `Process` call that fails, `Connect` fails and emits
exactly one error diagnostic, yet that message contains neither the peer
label `broker.example.com:1883` nor even the host name — refuting the claim
that every failure diagnostic includes the peer identity or best-available
host:port string. -/
theorem connect_processFailure_message_lacks_peer_label :
    (Connect
        ⟨fun _ _ => some ⟨fun _ _ => true, false⟩, fun _ => 7⟩
        "mqtt" "broker.example.com" 1883 (none : Option Nat) (none : Option Nat)).result = none ∧
      errorDiagnostics (Connect
          ⟨fun _ _ => some ⟨fun _ _ => true, false⟩, fun _ => 7⟩
          "mqtt" "broker.example.com" 1883 (none : Option Nat) (none : Option Nat)).trace =
        [" Error to start to process listening for incoming and sending outgoing messages. "] ∧
      ¬ ContainsSubstr
        " Error to start to process listening for incoming and sending outgoing messages. "
        (connectPeerId "broker.example.com" 1883) ∧
      ¬ ContainsSubstr
        " Error to start to process listening for incoming and sending outgoing messages. "
        "broker.example.com" := by
  refine ⟨by decide, by decide, by decide, by decide⟩

/-- C2 (amended): whenever `Connect` fails it returns null and emits exactly
one error-severity diagnostic; the factory-failure and connect-failure
messages contain the `host:port` peer label, and the resolution-failure
message contains the host name (without the port).  (The process-start
failure message contains no peer label at all.) -/
theorem connect_failure_single_error_diagnostic
    {Δd Δb : Type} (env : ConnectEnv) (scheme host : String) (port : Nat)
    (d : Option Δd) (b : Option Δb)
    (hfail : (Connect env scheme host port d b).result = none) :
    (errorDiagnostics (Connect env scheme host port d b).trace).length = 1 ∧
      ((env.factory scheme host = none ∨
        (∃ conn, env.factory scheme host = some conn ∧
          env.getAddressOfHost host ≠ 0 ∧
          conn.connectOk (env.getAddressOfHost host) port = false)) →
        ∃ msg, errorDiagnostics (Connect env scheme host port d b).trace = [msg] ∧
          ContainsSubstr msg (connectPeerId host port)) ∧
      ((∃ conn, env.factory scheme host = some conn) →
        env.getAddressOfHost host = 0 →
        ∃ msg, errorDiagnostics (Connect env scheme host port d b).trace = [msg] ∧
          ContainsSubstr msg host) := by
  rcases hf : env.factory scheme host with _ | conn
  · refine ⟨?_, fun _ => ?_, fun hc _ => ?_⟩
    · simp [Connect, hf, errorDiagnostics]
    · refine ⟨sprintf [.lit "Unabale to create connection to '", .spec, .lit "'"]
        [.str (connectPeerId host port)], ?_, ?_⟩
      · simp [Connect, hf, errorDiagnostics]
      · exact containsSubstr_of_eq _ _ "Unabale to create connection to '"
          ("'" ++ "") (by simp [sprintf, FmtArg.render])
    · rcases hc with ⟨conn, hconn⟩
      exact absurd hconn (by simp)
  · by_cases ha : env.getAddressOfHost host = 0
    · refine ⟨?_, fun hc => ?_, fun _ _ => ?_⟩
      · simp [Connect, hf, ha, errorDiagnostics]
      · rcases hc with hc | ⟨conn', hconn, hne, _⟩
        · exact absurd hc (by simp)
        · exact absurd ha hne
      · refine ⟨sprintf [.lit "There is no address to get from '", .spec, .lit "'"]
          [.str host], ?_, ?_⟩
        · simp [Connect, hf, ha, errorDiagnostics]
        · exact containsSubstr_of_eq _ _ "There is no address to get from '"
            ("'" ++ "") (by simp [sprintf, FmtArg.render])
    · cases hcok : conn.connectOk (env.getAddressOfHost host) port
      · refine ⟨?_, fun _ => ?_, fun _ hz => absurd hz ha⟩
        · simp [Connect, hf, ha, hcok, errorDiagnostics]
        · refine ⟨sprintf [.lit "Unable to connect to '", .spec, .lit "'"]
            [.str (connectPeerId host port)], ?_, ?_⟩
          · simp [Connect, hf, ha, hcok, errorDiagnostics]
          · exact containsSubstr_of_eq _ _ "Unable to connect to '"
              ("'" ++ "") (by simp [sprintf, FmtArg.render])
      · cases hpok : conn.processOk
        · refine ⟨?_, fun hc => ?_, fun _ hz => absurd hz ha⟩
          · simp [Connect, hf, ha, hcok, hpok, errorDiagnostics]
          · rcases hc with hc | ⟨conn', hconn, _, hcf⟩
            · exact absurd hc (by simp)
            · have hcc := Option.some.inj hconn
              subst hcc
              rw [hcok] at hcf
              exact absurd hcf (by simp)
        · exfalso
          simp [Connect, hf, ha, hcok, hpok] at hfail

/-- Witness for `connect_failure_single_error_diagnostic` at a concrete
environment whose factory returns null. -/
theorem connect_failure_single_error_diagnostic_witness :
    (errorDiagnostics (Connect
        ⟨fun _ _ => none, fun _ => 7⟩ "mqtt" "h" 1883 (none : Option Nat) (none : Option Nat)).trace).length = 1 ∧
      (((⟨fun _ _ => none, fun _ => 7⟩ : ConnectEnv).factory "mqtt" "h" = none ∨
        (∃ conn, (⟨fun _ _ => none, fun _ => 7⟩ : ConnectEnv).factory "mqtt" "h" = some conn ∧
          (⟨fun _ _ => none, fun _ => 7⟩ : ConnectEnv).getAddressOfHost "h" ≠ 0 ∧
          conn.connectOk ((⟨fun _ _ => none, fun _ => 7⟩ : ConnectEnv).getAddressOfHost "h") 1883 = false)) →
        ∃ msg, errorDiagnostics (Connect
            ⟨fun _ _ => none, fun _ => 7⟩ "mqtt" "h" 1883 (none : Option Nat) (none : Option Nat)).trace = [msg] ∧
          ContainsSubstr msg (connectPeerId "h" 1883)) ∧
      ((∃ conn, (⟨fun _ _ => none, fun _ => 7⟩ : ConnectEnv).factory "mqtt" "h" = some conn) →
        (⟨fun _ _ => none, fun _ => 7⟩ : ConnectEnv).getAddressOfHost "h" = 0 →
        ∃ msg, errorDiagnostics (Connect
            ⟨fun _ _ => none, fun _ => 7⟩ "mqtt" "h" 1883 (none : Option Nat) (none : Option Nat)).trace = [msg] ∧
          ContainsSubstr msg "h") :=
  connect_failure_single_error_diagnostic
    ⟨fun _ _ => none, fun _ => 7⟩ "mqtt" "h" 1883 (none : Option Nat) (none : Option Nat) rfl

/-- C5: Whenever a raw connection was created, the diagnostics relay handler
installed by `Connect` republishes every message delivered by the raw
connection's diagnostic stream at its original level, as the peer identity
label captured by `Connect` (`host:port`, per §4.5 step 2 the numeric form
is not yet known at subscription time), followed by `": "`, followed by the
original message content unmodified. -/
theorem connect_relay_prefixes_peer_label
    {Δd Δb : Type} (env : ConnectEnv) (scheme host : String) (port : Nat)
    (d : Option Δd) (b : Option Δb) (conn : RawConn)
    (hf : env.factory scheme host = some conn)
    (senderName : String) (level : Nat) (message : String) :
    ((Connect env scheme host port d b).relayHandler.map
        fun handler => handler senderName level message) =
      some (level, connectPeerId host port ++ ": " ++ message) := by
  by_cases ha : env.getAddressOfHost host = 0
  · simp [Connect, hf, ha]
  · cases hcok : conn.connectOk (env.getAddressOfHost host) port
    · simp [Connect, hf, ha, hcok]
    · cases hpok : conn.processOk <;> simp [Connect, hf, ha, hcok, hpok]

/-- Witness for `connect_relay_prefixes_peer_label` at a concrete
environment. -/
theorem connect_relay_prefixes_peer_label_witness :
    ((Connect
        ⟨fun _ _ => some ⟨fun _ _ => true, true⟩, fun _ => 7⟩
        "mqtt" "h" 1883 (none : Option Nat) (none : Option Nat)).relayHandler.map
        fun handler => handler "sender" 3 "msg") =
      some (3, connectPeerId "h" 1883 ++ ": " ++ "msg") :=
  connect_relay_prefixes_peer_label _ "mqtt" "h" 1883 (none : Option Nat) (none : Option Nat)
    ⟨fun _ _ => true, true⟩ rfl "sender" 3 "msg"

/-- C6: Whenever the factory yields a raw connection, `Connect` subscribes
the diagnostics relay to the raw connection's diagnostic stream with
minimum severity `informational + 1` (excluding the most verbose tier),
immediately after the raw connection is constructed and before the address
resolution and any low-level connect attempt: the trace always begins
factory call, diagnostics subscription, host resolution. -/
theorem connect_subscribes_diagnostics_before_resolution
    {Δd Δb : Type} (env : ConnectEnv) (scheme host : String) (port : Nat)
    (d : Option Δd) (b : Option Δb) (conn : RawConn)
    (hf : env.factory scheme host = some conn) :
    ∃ rest, (Connect env scheme host port d b).trace =
      Event.factoryCall scheme host ::
        Event.subscribeToRawDiagnostics (Levels.informational + 1) ::
        Event.resolveHost host :: rest := by
  by_cases ha : env.getAddressOfHost host = 0
  · exact ⟨[Event.diagnostic Levels.error
        (sprintf [.lit "There is no address to get from '", .spec, .lit "'"]
          [.str host])],
      by simp [Connect, hf, ha, Levels.informational]⟩
  · cases hcok : conn.connectOk (env.getAddressOfHost host) port
    · exact ⟨[Event.rawConnect (env.getAddressOfHost host) port,
        Event.diagnostic Levels.error
          (sprintf [.lit "Unable to connect to '", .spec, .lit "'"]
            [.str (connectPeerId host port)])],
        by simp [Connect, hf, ha, hcok, Levels.informational]⟩
    · cases hpok : conn.processOk
      · exact ⟨[Event.rawConnect (env.getAddressOfHost host) port,
          Event.installDelegates, Event.startProcess,
          Event.diagnostic Levels.error
            (" Error to start to process listening for incoming and sending outgoing "
              ++ "messages. ")],
          by simp [Connect, hf, ha, hcok, hpok, Levels.informational]⟩
      · exact ⟨[Event.rawConnect (env.getAddressOfHost host) port,
          Event.installDelegates, Event.startProcess],
          by simp [Connect, hf, ha, hcok, hpok, Levels.informational]⟩

/-- Witness for `connect_subscribes_diagnostics_before_resolution` at a
concrete environment. -/
theorem connect_subscribes_diagnostics_before_resolution_witness :
    ∃ rest, (Connect
        ⟨fun _ _ => some ⟨fun _ _ => true, true⟩, fun _ => 7⟩
        "mqtt" "h" 1883 (none : Option Nat) (none : Option Nat)).trace =
      Event.factoryCall "mqtt" "h" ::
        Event.subscribeToRawDiagnostics (Levels.informational + 1) ::
        Event.resolveHost "h" :: rest :=
  connect_subscribes_diagnostics_before_resolution _ "mqtt" "h" 1883 (none : Option Nat) (none : Option Nat)
    ⟨fun _ _ => true, true⟩ rfl

/-- C7: the event-translation closures `Connect` hands to `Process` tolerate
an absent delegate: when the corresponding registry slot is empty at
snapshot time, the closure performs no delegate invocation and completes
(returning an empty invocation list). -/
theorem translation_closures_tolerate_absent_delegate
    {Δd Δb : Type} (registry : ConnectionDelegates Δd Δb)
    (message : List Nat) (graceful : Bool) :
    (registry.dataReceivedDelegate = none →
      processDataClosure registry message = []) ∧
    (registry.brokenDelegate = none →
      processBrokenClosure registry graceful = []) := by
  constructor <;> intro h <;>
    simp [processDataClosure, processBrokenClosure, h]

/-- Witness for `translation_closures_tolerate_absent_delegate` at the empty
registry. -/
theorem translation_closures_tolerate_absent_delegate_witness :
    ((⟨none, none⟩ : ConnectionDelegates Nat Nat).dataReceivedDelegate = none →
      processDataClosure (⟨none, none⟩ : ConnectionDelegates Nat Nat) [1, 2] = []) ∧
    ((⟨none, none⟩ : ConnectionDelegates Nat Nat).brokenDelegate = none →
      processBrokenClosure (⟨none, none⟩ : ConnectionDelegates Nat Nat) true = []) :=
  translation_closures_tolerate_absent_delegate ⟨none, none⟩ [1, 2] true

/-- C8: in every `Connect` call that reaches the delegate-installation step
(factory produced a connection, resolution succeeded, low-level connect
succeeded), the caller's two delegates are stored in the adapter's registry
before the processing loop is started: the registry content at the moment
`Process` is called is exactly the supplied pair, and in the trace the
delegate installation immediately precedes the process start, with no
process start before it. -/
theorem connect_installs_delegates_before_process_start
    {Δd Δb : Type} (env : ConnectEnv) (scheme host : String) (port : Nat)
    (d : Option Δd) (b : Option Δb) (conn : RawConn)
    (hf : env.factory scheme host = some conn)
    (ha : env.getAddressOfHost host ≠ 0)
    (hc : conn.connectOk (env.getAddressOfHost host) port = true) :
    (Connect env scheme host port d b).registryAtProcessStart = some ⟨d, b⟩ ∧
      ∃ pre post, (Connect env scheme host port d b).trace =
        pre ++ Event.installDelegates :: Event.startProcess :: post ∧
        Event.startProcess ∉ pre ∧ Event.installDelegates ∉ pre := by
  cases hpok : conn.processOk
  · refine ⟨by simp [Connect, hf, ha, hc, hpok],
      [Event.factoryCall scheme host, Event.subscribeToRawDiagnostics 1,
        Event.resolveHost host,
        Event.rawConnect (env.getAddressOfHost host) port],
      [Event.diagnostic Levels.error
        (" Error to start to process listening for incoming and sending outgoing "
          ++ "messages. ")],
      by simp [Connect, hf, ha, hc, hpok], by simp, by simp⟩
  · refine ⟨by simp [Connect, hf, ha, hc, hpok],
      [Event.factoryCall scheme host, Event.subscribeToRawDiagnostics 1,
        Event.resolveHost host,
        Event.rawConnect (env.getAddressOfHost host) port], [],
      by simp [Connect, hf, ha, hc, hpok], by simp, by simp⟩

/-- Witness for `connect_installs_delegates_before_process_start` at a
concrete environment and concrete delegates. -/
theorem connect_installs_delegates_before_process_start_witness :
    (Connect
        ⟨fun _ _ => some ⟨fun _ _ => true, true⟩, fun _ => 7⟩
        "mqtt" "h" 1883 (some 5 : Option Nat) (some 6 : Option Nat)).registryAtProcessStart =
      some ⟨some 5, some 6⟩ ∧
      ∃ pre post, (Connect
          ⟨fun _ _ => some ⟨fun _ _ => true, true⟩, fun _ => 7⟩
          "mqtt" "h" 1883 (some 5 : Option Nat) (some 6 : Option Nat)).trace =
        pre ++ Event.installDelegates :: Event.startProcess :: post ∧
        Event.startProcess ∉ pre ∧ Event.installDelegates ∉ pre :=
  connect_installs_delegates_before_process_start _ "mqtt" "h" 1883
    (some 5) (some 6) ⟨fun _ _ => true, true⟩ rfl (by decide) rfl

/-- C10: the default connection factory installed by the transport's
constructor ignores both of its arguments and always returns the freshly
constructed OS-backed connection (never null); consequently, when the
transport uses the default factory, `Connect` never takes its
factory-failure branch: the second trace event is always the diagnostics
subscription, never the factory-failure diagnostic. -/
theorem defaultFactory_precludes_factory_failure
    {Δd Δb : Type} (c : RawConn) (env : ConnectEnv)
    (scheme scheme' host host' : String) (port : Nat)
    (d : Option Δd) (b : Option Δb)
    (henv : env.factory = defaultConnectionFactory c) :
    defaultConnectionFactory c scheme host = some c ∧
      defaultConnectionFactory c scheme host =
        defaultConnectionFactory c scheme' host' ∧
      env.factory scheme host ≠ none ∧
      (Connect env scheme host port d b).trace[1]? =
        some (Event.subscribeToRawDiagnostics 1) := by
  have hf : env.factory scheme host = some c := by
    simp [henv, defaultConnectionFactory]
  refine ⟨rfl, rfl, by simp [hf], ?_⟩
  by_cases ha : env.getAddressOfHost host = 0
  · simp [Connect, hf, ha]
  · cases hcok : c.connectOk (env.getAddressOfHost host) port
    · simp [Connect, hf, ha, hcok]
    · cases hpok : c.processOk <;> simp [Connect, hf, ha, hcok, hpok]

/-- Witness for `defaultFactory_precludes_factory_failure` at a concrete
environment built on the default factory. -/
theorem defaultFactory_precludes_factory_failure_witness :
    defaultConnectionFactory ⟨fun _ _ => true, true⟩ "mqtt" "h" =
        some ⟨fun _ _ => true, true⟩ ∧
      defaultConnectionFactory ⟨fun _ _ => true, true⟩ "mqtt" "h" =
        defaultConnectionFactory ⟨fun _ _ => true, true⟩ "mqtts" "h2" ∧
      (⟨defaultConnectionFactory ⟨fun _ _ => true, true⟩, fun _ => 7⟩ :
        ConnectEnv).factory "mqtt" "h" ≠ none ∧
      (Connect
          ⟨defaultConnectionFactory ⟨fun _ _ => true, true⟩, fun _ => 7⟩
          "mqtt" "h" 1883 (none : Option Nat) (none : Option Nat)).trace[1]? =
        some (Event.subscribeToRawDiagnostics 1) :=
  defaultFactory_precludes_factory_failure ⟨fun _ _ => true, true⟩ _
    "mqtt" "mqtts" "h" "h2" 1883 (none : Option Nat) (none : Option Nat) rfl

lemma regStates_closed :
    ∀ s ∈ regStates, ∀ t ∈ regNext s, t ∈ regStates := by decide

lemma regReachable_mem (s : RegState) (h : RegReachable s) :
    s ∈ regStates := by
  induction h with
  | init => decide
  | step _ hmem ih => exact regStates_closed _ ih _ hmem

lemma regStates_safe : ∀ s ∈ regStates,
    (¬(s.pcW = 4 ∧ s.pcR = 5) → regNext s ≠ []) ∧
      ¬((s.pcW = 1 ∨ s.pcW = 2) ∧ (s.pcR = 1 ∨ s.pcR = 2)) ∧
      (s.pcR = 4 → s.lock ≠ some LockOwner.reader) ∧
      (3 ≤ s.pcR → (s.snap1 = 0 ∧ s.snap2 = 0) ∨ (s.snap1 = 1 ∧ s.snap2 = 1)) := by
  decide

/-- C9: in every interleaving of a delegate-replacement call with an
in-flight event-translation closure, every reachable state satisfies:
no deadlock (whenever either operation is unfinished, some thread can
step); the registry's set and snapshot operations are mutually exclusive
(the writer is never mid-store while the reader is mid-snapshot, so no
torn or partial delegate value is ever observed: a completed snapshot is
the old delegate intact or the new delegate intact); and the
mutual-exclusion primitive is held only for the duration of the read or
write — at the delegate-invocation step the event thread no longer holds
the lock. -/
theorem registry_concurrency_safe (s : RegState) (h : RegReachable s) :
    (¬(s.pcW = 4 ∧ s.pcR = 5) → regNext s ≠ []) ∧
      ¬((s.pcW = 1 ∨ s.pcW = 2) ∧ (s.pcR = 1 ∨ s.pcR = 2)) ∧
      (s.pcR = 4 → s.lock ≠ some LockOwner.reader) ∧
      (3 ≤ s.pcR → (s.snap1 = 0 ∧ s.snap2 = 0) ∨ (s.snap1 = 1 ∧ s.snap2 = 1)) :=
  regStates_safe s (regReachable_mem s h)

/-- Witness for `registry_concurrency_safe` at the initial state. -/
theorem registry_concurrency_safe_witness :
    (¬(regInit.pcW = 4 ∧ regInit.pcR = 5) → regNext regInit ≠ []) ∧
      ¬((regInit.pcW = 1 ∨ regInit.pcW = 2) ∧ (regInit.pcR = 1 ∨ regInit.pcR = 2)) ∧
      (regInit.pcR = 4 → regInit.lock ≠ some LockOwner.reader) ∧
      (3 ≤ regInit.pcR →
        (regInit.snap1 = 0 ∧ regInit.snap2 = 0) ∨
          (regInit.snap1 = 1 ∧ regInit.snap2 = 1)) :=
  registry_concurrency_safe regInit RegReachable.init

end MqttNetworkTransport
